import Mathlib

/-!
Shallow embedding of the NukaCola LED cluster engine (LedCluster.h) and
proofs about its pattern math, settings lifecycle and output pipeline.

Modelling conventions:
* C `int`/`long` values are `ℤ`; the code never overflows 32 bits on the
  inputs considered, so no wrap-around is modelled.
* C `float` values are modelled as exact rationals `ℚ`.
* A C cast or implicit conversion of a float to an integer truncates toward
  zero (`cint`); the Arduino `round` macro is `crnd`.
* C `%` and `/` on integers truncate toward zero (`Int.tmod`, `Int.tdiv`).
* EEPROM-backed settings (`NonVol<Settings>`) are modelled as an explicit
  `Settings` value threaded through each operation; `analogWrite` calls are
  collected as `(pin, dutyCycle)` output pairs.
-/

namespace NukaCola

/-- Truncation toward zero: the effect of casting a C float to an int. -/
def cint (q : ℚ) : ℤ := if 0 ≤ q then ⌊q⌋ else ⌈q⌉

/-- The Arduino `round` macro: `(x) >= 0 ? (long)((x)+0.5) : (long)((x)-0.5)`,
where the cast truncates toward zero. -/
def crnd (q : ℚ) : ℤ := if 0 ≤ q then ⌊q + 1/2⌋ else ⌈q - 1/2⌉

/-! Constants from LedCluster.h. -/

/-- The settings version number (`#define VERSION (1)`). -/
def VERSION : ℤ := 1

/-- Number of enumerators before `PATTERN_COUNT` in `enum Patterns`. -/
def PATTERN_COUNT : ℤ := 12

/-- `Patterns::JustOn` = 0. -/
def JustOn : ℤ := 0

/-- `Patterns::ChaseClockwise` = 1. -/
def ChaseClockwise : ℤ := 1

/-- `Patterns::Raindrop` = 9. -/
def Raindrop : ℤ := 9

/-- `BrightnessConstants::MIN_BRIGHTNESS`. -/
def MIN_BRIGHTNESS : ℤ := 1

/-- `BrightnessConstants::MAX_BRIGHTNESS`. -/
def MAX_BRIGHTNESS : ℤ := 20

/-- `BrightnessConstants::DEFAULT_BRIGHTNESS`. -/
def DEFAULT_BRIGHTNESS : ℤ := 18

/-- `SpeedConstants::MIN_SPEED` (revolutions per minute). -/
def MIN_SPEED : ℤ := 6

/-- `SpeedConstants::MAX_SPEED` (revolutions per minute). -/
def MAX_SPEED : ℤ := 60

/-- `SpeedConstants::SPEED_STEP`. -/
def SPEED_STEP : ℤ := 3

/-- `SpeedConstants::DEFAULT_SPEED`. -/
def DEFAULT_SPEED : ℤ := 18

/-- `RaindropConstants::RAINDROP_ANGLE`. -/
def RAINDROP_ANGLE : ℤ := 12

/-- `RaindropConstants::RAMPUP_ANGLE`. -/
def RAMPUP_ANGLE : ℤ := 3

/-- `RaindropConstants::RAMPDOWN_ANGLE`. -/
def RAMPDOWN_ANGLE : ℤ := RAINDROP_ANGLE - RAMPUP_ANGLE

/-- The float constant `0.0174533f` used by the throb modes. -/
def RADS_PER_DEGREE : ℚ := 174533 / 10000000

/-- The 101-entry brightness-percentage to 8-bit duty cycle lookup table
`BRIGHTNESS_TO_DUTY_CYCLE`. -/
def BRIGHTNESS_TO_DUTY_CYCLE : List ℤ :=
  [  0,   1,   2,   3,   4,   5,   6,   7,   8,   9,
    10,  12,  13,  14,  15,  16,  17,  18,  20,  21,
    22,  23,  24,  26,  27,  28,  30,  31,  32,  33,
    35,  36,  38,  39,  40,  42,  43,  45,  46,  48,
    49,  51,  53,  54,  56,  57,  59,  61,  63,  64,
    66,  68,  70,  72,  74,  76,  78,  80,  82,  84,
    86,  88,  90,  93,  95,  97, 100, 102, 105, 107,
   110, 113, 116, 118, 121, 124, 128, 131, 134, 137,
   141, 145, 148, 152, 156, 160, 165, 169, 174, 179,
   184, 189, 195, 201, 207, 214, 221, 229, 237, 245, 255]

/-- `LedCluster::forceRange(value, min_val, max_val) = min(max(value, min_val), max_val)`. -/
def forceRange (value min_val max_val : ℤ) : ℤ := min (max value min_val) max_val

/-- `LedCluster::brightnessToDutyCycle`: clamp the brightness into [0,100] and
look it up in the duty-cycle table. -/
def brightnessToDutyCycle (brightness : ℤ) : ℤ :=
  BRIGHTNESS_TO_DUTY_CYCLE.getD (forceRange brightness 0 100).toNat 0

/-- The persisted `Settings` record. `pattern` is the underlying integer of the
`Patterns` enumerator; `invalid` is the sentinel byte. -/
structure Settings where
  version : ℤ
  pattern : ℤ
  brightnessMultiplier : ℤ
  revsPerMinute : ℤ
  invalid : ℤ
  deriving DecidableEq, Repr

/-- The defaults written by the constructor on an invalid or mismatched load. -/
def defaultSettings : Settings :=
  { version := VERSION
  , pattern := ChaseClockwise
  , brightnessMultiplier := DEFAULT_BRIGHTNESS
  , revsPerMinute := DEFAULT_SPEED
  , invalid := 0 }

/-- The settings-validation part of the `LedCluster` constructor: load the
record from non-volatile storage; if the sentinel is set or the version
mismatches, reset every field to the defaults and write the record back.
Returns (in-memory settings, non-volatile settings after construction). -/
def ledClusterInit (nv : Settings) : Settings × Settings :=
  let settings := nv
  if settings.invalid ≠ 0 ∨ settings.version ≠ VERSION then
    (defaultSettings, defaultSettings)
  else (settings, nv)

/-- `LedCluster::globaliseBrightness`, with the persisted
`brightnessMultiplier` passed explicitly: scales unless the multiplier equals
`MAX_BRIGHTNESS`. -/
def globaliseBrightness (mult brightness : ℤ) : ℤ :=
  if mult ≠ MAX_BRIGHTNESS then
    crnd (((mult * brightness : ℤ) : ℚ) / (MAX_BRIGHTNESS : ℚ))
  else brightness

/-! Settings mutators. Each takes the current non-volatile record and the
argument, and returns (reported change flag, non-volatile record afterward). -/

/-- `LedCluster::setBrightness`. -/
def setBrightnessRun (nv : Settings) (value : ℤ) : Bool × Settings :=
  let newValue := forceRange value MIN_BRIGHTNESS MAX_BRIGHTNESS
  if newValue ≠ nv.brightnessMultiplier then
    (true, { nv with brightnessMultiplier := newValue })
  else (false, nv)

/-- `LedCluster::updateBrightness`. -/
def updateBrightnessRun (nv : Settings) (delta : ℤ) : Bool × Settings :=
  setBrightnessRun nv (nv.brightnessMultiplier + delta)

/-- `LedCluster::setBrightnessPercent`. -/
def setBrightnessPercentRun (nv : Settings) (percent : ℤ) : Bool × Settings :=
  setBrightnessRun nv (Int.tdiv (percent * MAX_BRIGHTNESS) 100)

/-- The clamped value stored by `LedCluster::setPattern`. -/
def setPatternApplied (pattern : ℤ) : ℤ := forceRange pattern 0 PATTERN_COUNT

/-- `LedCluster::setPattern`. -/
def setPatternRun (nv : Settings) (pattern : ℤ) : Bool × Settings :=
  let newValue := setPatternApplied pattern
  if nv.pattern ≠ newValue then
    (true, { nv with pattern := newValue })
  else (false, nv)

/-- `LedCluster::updatePattern`. -/
def updatePatternRun (nv : Settings) (delta : ℤ) : Bool × Settings :=
  setPatternRun nv (Int.tmod (nv.pattern + PATTERN_COUNT + delta) PATTERN_COUNT)

/-- The clamped value stored by `LedCluster::setSpeed`. -/
def setSpeedApplied (speed : ℤ) : ℤ := forceRange speed MIN_SPEED MAX_SPEED

/-- `LedCluster::setSpeed`. -/
def setSpeedRun (nv : Settings) (speed : ℤ) : Bool × Settings :=
  let newValue := setSpeedApplied speed
  if newValue ≠ nv.revsPerMinute then
    (true, { nv with revsPerMinute := newValue })
  else (false, nv)

/-- `LedCluster::updateSpeed`. -/
def updateSpeedRun (nv : Settings) (delta : ℤ) : Bool × Settings :=
  setSpeedRun nv (nv.revsPerMinute + delta * SPEED_STEP)

/-- The speed value handed to `setSpeed` by `LedCluster::setSpeedPercent`. -/
def setSpeedPercentApplied (percent : ℤ) : ℤ :=
  setSpeedApplied (Int.tdiv (MAX_SPEED * percent) 100)

/-- `LedCluster::setSpeedPercent`. -/
def setSpeedPercentRun (nv : Settings) (percent : ℤ) : Bool × Settings :=
  setSpeedRun nv (Int.tdiv (MAX_SPEED * percent) 100)

/-- A recommended affine interpolation of [0,100] percent onto the
[`MIN_SPEED`, `MAX_SPEED`] rpm range, following the words of the claim
(0 percent yields `MIN_SPEED`, 100 percent yields `MAX_SPEED`, linear in
between); stated only to be compared with `setSpeedPercentApplied`. -/
def setSpeedPercentLinearSpec (percent : ℤ) : ℤ :=
  MIN_SPEED + Int.tdiv ((MAX_SPEED - MIN_SPEED) * percent) 100

/-- `struct LightLocationInfo`: the cycle-clock sample. -/
structure LightLocationInfo where
  angle : ℚ
  revolution : ℤ
  deriving DecidableEq

/-- `LedCluster::getCurrentLightInfo`: from the elapsed run time and the
revolution period, compute the lead angle and revolution counter. -/
def getCurrentLightInfo (nowMs startTimeMs revTimePeriodMs : ℤ) : LightLocationInfo :=
  let elapsedMs := nowMs - startTimeMs
  { angle := (360 : ℚ) * ((Int.tmod elapsedMs revTimePeriodMs : ℤ) : ℚ) /
      ((revTimePeriodMs : ℤ) : ℚ)
  , revolution := Int.tdiv elapsedMs revTimePeriodMs }

/-! The raw (pre-scaling) brightness computed by each pattern function, i.e.
the argument each pattern hands to `globaliseBrightness`. -/

/-- `LedCluster::chaseModeCw` raw brightness. -/
def chaseModeCwRaw (lead ledAngle : ℚ) : ℤ :=
  let angle := Int.tmod (cint ((lead + 360) - ledAngle)) 360
  crnd ((100 : ℚ) * ((360 - angle : ℤ) : ℚ) / 360)

/-- `LedCluster::chaseModeAcw` raw brightness. -/
def chaseModeAcwRaw (lead ledAngle : ℚ) : ℤ :=
  let angle := Int.tmod (cint ((lead + 360) + ledAngle)) 360
  crnd ((100 : ℚ) * ((360 - angle : ℤ) : ℚ) / 360)

/-- `LedCluster::chaseModeBoth` raw brightness. -/
def chaseModeBothRaw (lead ledAngle : ℚ) : ℤ :=
  let angle := min (Int.tmod (cint ((lead + 360) - ledAngle)) 360)
    (Int.tmod (cint ((lead + 360) + ledAngle)) 360)
  crnd ((100 : ℚ) * ((360 - angle : ℤ) : ℚ) / 360)

/-- The folded angular distance (`angle` after the second assignment) computed
by `LedCluster::waveModeCw`. -/
def waveAngleCw (lead ledAngle : ℚ) : ℤ :=
  |Int.tmod (cint (lead - ledAngle) + 180) 360 - 180|

/-- `LedCluster::waveModeCw` raw brightness. -/
def waveModeCwRaw (lead ledAngle : ℚ) : ℤ :=
  crnd ((100 : ℚ) * ((180 - waveAngleCw lead ledAngle : ℤ) : ℚ) / 180)

/-- The folded angular distance computed by `LedCluster::waveModeAcw`. -/
def waveAngleAcw (lead ledAngle : ℚ) : ℤ :=
  |Int.tmod ((360 - cint (lead - ledAngle)) + 180) 360 - 180|

/-- `LedCluster::waveModeAcw` raw brightness. -/
def waveModeAcwRaw (lead ledAngle : ℚ) : ℤ :=
  crnd ((100 : ℚ) * ((180 - waveAngleAcw lead ledAngle : ℤ) : ℚ) / 180)

/-- The `delta` local of `LedCluster::heartbeatMode`. -/
def heartbeatDelta (lead : ℚ) : ℤ := crnd (min |225 - lead| |135 - lead|)

/-- The `percent` local of `LedCluster::heartbeatMode`. -/
def heartbeatPercent (lead : ℚ) : ℤ :=
  crnd (((100 * heartbeatDelta lead : ℤ) : ℚ) / 135)

/-- `LedCluster::heartbeatMode` raw brightness. -/
def heartbeatRaw (lead : ℚ) : ℤ :=
  crnd ((((100 - heartbeatPercent lead : ℤ) : ℚ) * 2) - 100)

/-- `LedCluster::throbMode` and `throbMode2` raw brightness, parameterised by
the platform cosine or sine function (floats modelled as rationals); the
product is truncated by the implicit conversion to the int parameter of
`globaliseBrightness`. -/
def throbRaw (f : ℚ → ℚ) (lead : ℚ) : ℤ :=
  let value := 2 * crnd |180 - lead|
  cint ((1 + f (((value : ℤ) : ℚ) * RADS_PER_DEGREE)) * 50)

/-- `LedCluster::justOn` raw brightness: the constant 100 handed to
`globaliseBrightness`. -/
def justOnRaw : ℤ := 100

/-- The raw (pre-scaling) brightness computed by `LedCluster::raindropMode` as
a function of the relative `position` local (`info->angle - led->extra`,
truncated to int): the ramp-up and ramp-down branches hand these values to
`globaliseBrightness`, while the final else branch stores brightness 0
directly. -/
def raindropRaw (position : ℤ) : ℤ :=
  if 0 ≤ position ∧ position < RAMPUP_ANGLE then
    crnd (((100 * position : ℤ) : ℚ) / ((RAMPUP_ANGLE : ℤ) : ℚ))
  else if RAMPUP_ANGLE ≤ position ∧ position < RAINDROP_ANGLE then
    100 - crnd (((100 * (position - RAMPUP_ANGLE) : ℤ) : ℚ) / ((RAMPDOWN_ANGLE : ℤ) : ℚ))
  else 0

/-- The clamped scratch value `LedCluster::candleMode` hands to
`globaliseBrightness`; `r` is the value returned by `random(-4, 4)`. -/
def candleRaw (extra r : ℤ) : ℤ := forceRange (extra + r) 0 100

/-- The clamped value `LedCluster::staticMode` hands to `globaliseBrightness`
for its one-tick output; `noise` is the value returned by `random(-10, 40)`. -/
def staticRaw (extra r noise : ℤ) : ℤ := forceRange (candleRaw extra r + noise) 0 100

/-- `struct LedInfo`. -/
structure LedInfo where
  index : ℤ
  angle : ℚ
  brightness : ℤ
  pin : ℤ
  extra : ℤ
  deriving DecidableEq

/-- `LedCluster::raindropMode` resulting brightness field (the final else
branch stores 0 directly, without global scaling). -/
def raindropBrightness (mult : ℤ) (lead : ℚ) (extra : ℤ) : ℤ :=
  let position := cint (lead - (extra : ℚ))
  if 0 ≤ position ∧ position < RAMPUP_ANGLE then
    globaliseBrightness mult
      (crnd (((100 * position : ℤ) : ℚ) / ((RAMPUP_ANGLE : ℤ) : ℚ)))
  else if RAMPUP_ANGLE ≤ position ∧ position < RAINDROP_ANGLE then
    globaliseBrightness mult
      (100 - crnd (((100 * (position - RAMPUP_ANGLE) : ℤ) : ℚ) / ((RAMPDOWN_ANGLE : ℤ) : ℚ)))
  else 0

/-- `LedCluster::candleMode`: bounded random walk of the scratch value; `r` is
the value returned by `random(-4, 4)`. -/
def candleMode (mult r : ℤ) (led : LedInfo) : LedInfo :=
  let extra := forceRange (led.extra + r) 0 100
  { led with extra := extra, brightness := globaliseBrightness mult extra }

/-- `LedCluster::staticMode`: candle walk plus one-tick noise; `noise` is the
value returned by `random(-10, 40)`. -/
def staticMode (mult r noise : ℤ) (led : LedInfo) : LedInfo :=
  let led1 := candleMode mult r led
  { led1 with brightness := globaliseBrightness mult (forceRange (led1.extra + noise) 0 100) }

/-- One pattern-method application to one LED, dispatching on the pattern
index exactly as the `switch` in `LedCluster::poll` does; `r1 i` and `r2 i`
supply the random values drawn for LED `i` by the candle and static modes. -/
def patternStep (cosf sinf : ℚ → ℚ) (r1 r2 : ℕ → ℤ) (mult pattern : ℤ)
    (info : LightLocationInfo) (i : ℕ) (led : LedInfo) : LedInfo :=
  if pattern = 1 then
    { led with brightness := globaliseBrightness mult (chaseModeCwRaw info.angle led.angle) }
  else if pattern = 2 then
    { led with brightness := globaliseBrightness mult (chaseModeAcwRaw info.angle led.angle) }
  else if pattern = 3 then
    { led with brightness := globaliseBrightness mult (chaseModeBothRaw info.angle led.angle) }
  else if pattern = 4 then
    { led with brightness := globaliseBrightness mult (waveModeCwRaw info.angle led.angle) }
  else if pattern = 5 then
    { led with brightness := globaliseBrightness mult (waveModeAcwRaw info.angle led.angle) }
  else if pattern = 6 then
    { led with brightness := globaliseBrightness mult (throbRaw cosf info.angle) }
  else if pattern = 7 then
    { led with brightness := globaliseBrightness mult (throbRaw sinf info.angle) }
  else if pattern = 8 then
    { led with brightness := globaliseBrightness mult (heartbeatRaw info.angle) }
  else if pattern = 9 then
    { led with brightness := raindropBrightness mult info.angle led.extra }
  else if pattern = 10 then candleMode mult (r1 i) led
  else if pattern = 11 then staticMode mult (r1 i) (r2 i) led
  else { led with brightness := globaliseBrightness mult 100 }

/-- `LedCluster::updateLedBrightnesses`: the `analogWrite` calls emitted for
one rendering pass, as (pin, duty cycle) pairs in LED order. -/
def updateLedBrightnesses (leds : List LedInfo) : List (ℤ × ℤ) :=
  leds.map fun led => (led.pin, brightnessToDutyCycle led.brightness)

/-- `LedCluster::populateRaindrops`, with `r3 i` the value `random(348)`
returned for LED `i`. -/
def populateRaindrops (r3 : ℕ → ℤ) (leds : List LedInfo) : List LedInfo :=
  leds.mapIdx fun i led => { led with extra := r3 i }

/-- The mutable `LedCluster` state relevant to polling: the LED table, the
running flag, the (in-memory = persisted) settings, the start time, the
revolution period and the function-static `lastRevolution` of `poll`. -/
structure ClusterState where
  leds : List LedInfo
  running : Bool
  settings : Settings
  startTimeMs : ℤ
  revTimePeriodMs : ℤ
  lastRevolution : ℤ

/-- `LedCluster::poll` at time `nowMs`: when running, sample the clock,
re-roll raindrop offsets on a new revolution, apply the selected pattern
method to every LED and emit the duty cycles; when the pattern index matches
no switch case (out of range), or when not running, emit nothing. Returns the
new state and the emitted (pin, duty cycle) pairs. -/
def pollRun (cosf sinf : ℚ → ℚ) (r1 r2 r3 : ℕ → ℤ) (nowMs : ℤ)
    (s : ClusterState) : ClusterState × List (ℤ × ℤ) :=
  if s.running then
    let info := getCurrentLightInfo nowMs s.startTimeMs s.revTimePeriodMs
    let leds0 :=
      if s.settings.pattern = Raindrop ∧ s.lastRevolution ≠ info.revolution then
        populateRaindrops r3 s.leds
      else s.leds
    if 0 ≤ s.settings.pattern ∧ s.settings.pattern < PATTERN_COUNT then
      let leds1 := leds0.mapIdx fun i led =>
        patternStep cosf sinf r1 r2 s.settings.brightnessMultiplier
          s.settings.pattern info i led
      ({ s with leds := leds1, lastRevolution := info.revolution },
        updateLedBrightnesses leds1)
    else
      ({ s with leds := leds0, lastRevolution := info.revolution }, [])
  else (s, [])

/-- Iterated polling: run `pollRun` once per entry of `times`, concatenating
the emitted outputs. -/
def pollsRun (cosf sinf : ℚ → ℚ) (r1 r2 r3 : ℕ → ℤ) (s : ClusterState) :
    List ℤ → ClusterState × List (ℤ × ℤ)
  | [] => (s, [])
  | t :: ts =>
    let p := pollRun cosf sinf r1 r2 r3 t s
    let rest := pollsRun cosf sinf r1 r2 r3 p.1 ts
    (rest.1, p.2 ++ rest.2)

/-- `LedCluster::shutdown`: clear the running flag and write duty cycle 0 to
every LED pin. -/
def shutdownRun (s : ClusterState) : ClusterState × List (ℤ × ℤ) :=
  ({ s with running := false }, s.leds.map fun led => (led.pin, 0))

/-- `LedCluster::startUp`: when not running, restart the clock, set the
running flag and render one tick immediately. -/
def startUpRun (cosf sinf : ℚ → ℚ) (r1 r2 r3 : ℕ → ℤ) (nowMs : ℤ)
    (s : ClusterState) : ClusterState × List (ℤ × ℤ) :=
  if !s.running then
    pollRun cosf sinf r1 r2 r3 nowMs
      { s with startTimeMs := nowMs, running := true }
  else (s, [])

/-! Helper lemmas about the C-arithmetic primitives. -/

/-- `crnd` is the identity on integers. -/
theorem crnd_intCast (n : ℤ) : crnd ((n : ℚ)) = n := by
  unfold crnd
  by_cases hn : (0 : ℚ) ≤ (n : ℚ)
  · rw [if_pos hn, Int.floor_int_add]
    have h : ⌊(1/2 : ℚ)⌋ = 0 := by norm_num [Int.floor_eq_iff]
    omega
  · rw [if_neg hn, show ((n : ℚ) - 1/2) = (-(1/2) + (n : ℚ)) by ring, Int.ceil_add_int]
    have h : ⌈(-(1/2) : ℚ)⌉ = 0 := by norm_num [Int.ceil_eq_iff]
    omega

/-- `crnd` is monotone. -/
theorem crnd_mono {p q : ℚ} (h : p ≤ q) : crnd p ≤ crnd q := by
  unfold crnd
  by_cases hp : 0 ≤ p
  · have hq : 0 ≤ q := hp.trans h
    rw [if_pos hp, if_pos hq]
    exact Int.floor_le_floor (by linarith)
  · by_cases hq : 0 ≤ q
    · rw [if_neg hp, if_pos hq]
      have h1 : (⌈p - 1/2⌉ : ℤ) ≤ 0 := Int.ceil_le.mpr (by push_cast; linarith)
      have h2 : (0 : ℤ) ≤ ⌊q + 1/2⌋ := Int.floor_nonneg.mpr (by linarith)
      omega
    · rw [if_neg hp, if_neg hq]
      exact Int.ceil_le_ceil (by linarith)

/-- An integer upper bound on the argument bounds `crnd`. -/
theorem crnd_le_int {q : ℚ} {b : ℤ} (h : q ≤ (b : ℚ)) : crnd q ≤ b := by
  have h' := crnd_mono h
  rwa [crnd_intCast] at h'

/-- An integer lower bound on the argument bounds `crnd`. -/
theorem int_le_crnd {a : ℤ} {q : ℚ} (h : (a : ℚ) ≤ q) : a ≤ crnd q := by
  have h' := crnd_mono h
  rwa [crnd_intCast] at h'

/-- Truncation stays below a positive strict upper bound. -/
theorem cint_lt_of_lt {q : ℚ} {b : ℤ} (hb : 0 < b) (h : q < (b : ℚ)) : cint q < b := by
  unfold cint
  by_cases hq : 0 ≤ q
  · rw [if_pos hq]
    exact Int.floor_lt.mpr h
  · rw [if_neg hq]
    have h1 : (⌈q⌉ : ℤ) ≤ 0 := Int.ceil_le.mpr (by push_cast; linarith)
    omega

/-- Truncation stays above a negative strict lower bound. -/
theorem lt_cint_of_lt {q : ℚ} {b : ℤ} (hb : 0 < b) (h : (-b : ℚ) < q) : -b < cint q := by
  unfold cint
  by_cases hq : 0 ≤ q
  · rw [if_pos hq]
    have h1 : (0 : ℤ) ≤ ⌊q⌋ := Int.floor_nonneg.mpr hq
    omega
  · rw [if_neg hq]
    exact Int.lt_ceil.mpr (by push_cast at h ⊢; linarith)

/-- Truncation of a nonnegative value is nonnegative. -/
theorem cint_nonneg {q : ℚ} (h : 0 ≤ q) : 0 ≤ cint q := by
  unfold cint
  rw [if_pos h]
  exact Int.floor_nonneg.mpr h

/-- C truncating modulo is the identity on small negative operands. -/
theorem tmod_eq_self_of_neg {x b : ℤ} (hb : 0 < b) (h1 : -b < x) (h2 : x < 0) :
    Int.tmod x b = x := by
  have hx : x = -(-x) := by ring
  have h3 : (-x).tdiv b = 0 := Int.tdiv_eq_zero_of_lt (by omega) (by omega)
  have h4 : x.tdiv b = 0 := by
    rw [hx, Int.neg_tdiv, h3]
    ring
  rw [Int.tmod_def, h4]
  ring

/-- Truncation is at least the floor. -/
theorem floor_le_cint (q : ℚ) : ⌊q⌋ ≤ cint q := by
  unfold cint
  by_cases hq : 0 ≤ q
  · rw [if_pos hq]
  · rw [if_neg hq]
    exact Int.floor_le_ceil q

/-- Truncation is at most the ceiling. -/
theorem cint_le_ceil (q : ℚ) : cint q ≤ ⌈q⌉ := by
  unfold cint
  by_cases hq : 0 ≤ q
  · rw [if_pos hq]
    exact Int.floor_le_ceil q
  · rw [if_neg hq]

/-- An integer upper bound on the argument bounds `cint`. -/
theorem cint_le_int {q : ℚ} {b : ℤ} (h : q ≤ (b : ℚ)) : cint q ≤ b :=
  le_trans (cint_le_ceil q) (Int.ceil_le.mpr h)

/-- An integer lower bound on the argument bounds `cint`. -/
theorem int_le_cint {a : ℤ} {q : ℚ} (h : (a : ℚ) ≤ q) : a ≤ cint q :=
  le_trans (Int.le_floor.mpr h) (floor_le_cint q)

/-- C truncating modulo by 360 of a nonnegative operand lies in [0, 359]. -/
theorem tmod360_bounds {x : ℤ} (hx : 0 ≤ x) :
    0 ≤ Int.tmod x 360 ∧ Int.tmod x 360 ≤ 359 := by
  have h1 := Int.tmod_nonneg 360 hx
  have h2 := Int.tmod_lt_of_pos x (show (0 : ℤ) < 360 by norm_num)
  omega

/-- The chase brightness formula maps an angle in [0, 359] into [0, 100]. -/
theorem chase_formula_bounds {angle : ℤ} (h0 : 0 ≤ angle) (h1 : angle ≤ 359) :
    0 ≤ crnd ((100 : ℚ) * ((360 - angle : ℤ) : ℚ) / 360) ∧
    crnd ((100 : ℚ) * ((360 - angle : ℤ) : ℚ) / 360) ≤ 100 := by
  have h0' : (0 : ℚ) ≤ (angle : ℚ) := by exact_mod_cast h0
  have h1' : (angle : ℚ) ≤ 359 := by exact_mod_cast h1
  constructor
  · apply int_le_crnd
    rw [le_div_iff₀ (by norm_num : (0 : ℚ) < 360)]
    push_cast
    linarith
  · apply crnd_le_int
    rw [div_le_iff₀ (by norm_num : (0 : ℚ) < 360)]
    push_cast
    linarith

/-- The chase (clockwise) raw brightness lies in [0, 100] for angles in
[0, 360). -/
theorem chaseModeCwRaw_bounds (lead ledAngle : ℚ) (h0 : 0 ≤ lead)
    (g1 : ledAngle < 360) :
    0 ≤ chaseModeCwRaw lead ledAngle ∧ chaseModeCwRaw lead ledAngle ≤ 100 := by
  simp only [chaseModeCwRaw]
  obtain ⟨t0, t1⟩ := tmod360_bounds (cint_nonneg
    (show (0 : ℚ) ≤ (lead + 360) - ledAngle by linarith))
  exact chase_formula_bounds t0 t1

/-- The chase (anti-clockwise) raw brightness lies in [0, 100] for
nonnegative angles. -/
theorem chaseModeAcwRaw_bounds (lead ledAngle : ℚ) (h0 : 0 ≤ lead)
    (g0 : 0 ≤ ledAngle) :
    0 ≤ chaseModeAcwRaw lead ledAngle ∧ chaseModeAcwRaw lead ledAngle ≤ 100 := by
  simp only [chaseModeAcwRaw]
  obtain ⟨t0, t1⟩ := tmod360_bounds (cint_nonneg
    (show (0 : ℚ) ≤ (lead + 360) + ledAngle by linarith))
  exact chase_formula_bounds t0 t1

/-- The chase (both directions) raw brightness lies in [0, 100] for angles in
[0, 360). -/
theorem chaseModeBothRaw_bounds (lead ledAngle : ℚ) (h0 : 0 ≤ lead)
    (g0 : 0 ≤ ledAngle) (g1 : ledAngle < 360) :
    0 ≤ chaseModeBothRaw lead ledAngle ∧ chaseModeBothRaw lead ledAngle ≤ 100 := by
  simp only [chaseModeBothRaw]
  obtain ⟨a0, a1⟩ := tmod360_bounds (cint_nonneg
    (show (0 : ℚ) ≤ (lead + 360) - ledAngle by linarith))
  obtain ⟨b0, b1⟩ := tmod360_bounds (cint_nonneg
    (show (0 : ℚ) ≤ (lead + 360) + ledAngle by linarith))
  exact chase_formula_bounds (le_min a0 b0) (min_le_of_left_le a1)

/-- The anti-clockwise wave fold produces an angle in [0, 180] for angles in
[0, 360). -/
theorem waveAngleAcw_bounds (lead ledAngle : ℚ) (h0 : 0 ≤ lead) (h1 : lead < 360)
    (g0 : 0 ≤ ledAngle) (g1 : ledAngle < 360) :
    0 ≤ waveAngleAcw lead ledAngle ∧ waveAngleAcw lead ledAngle ≤ 180 := by
  unfold waveAngleAcw
  have hx1 : cint (lead - ledAngle) < 360 :=
    cint_lt_of_lt (by norm_num) (by push_cast; linarith)
  have hx0 : -360 < cint (lead - ledAngle) :=
    lt_cint_of_lt (b := 360) (by norm_num) (by push_cast; linarith)
  obtain ⟨t0, t1⟩ := tmod360_bounds
    (show 0 ≤ (360 - cint (lead - ledAngle)) + 180 by omega)
  refine ⟨abs_nonneg _, ?_⟩
  rw [abs_le]
  omega

/-- The wave (anti-clockwise) raw brightness lies in [0, 100] for angles in
[0, 360). -/
theorem waveModeAcwRaw_bounds (lead ledAngle : ℚ) (h0 : 0 ≤ lead) (h1 : lead < 360)
    (g0 : 0 ≤ ledAngle) (g1 : ledAngle < 360) :
    0 ≤ waveModeAcwRaw lead ledAngle ∧ waveModeAcwRaw lead ledAngle ≤ 100 := by
  obtain ⟨ha0, ha1⟩ := waveAngleAcw_bounds lead ledAngle h0 h1 g0 g1
  unfold waveModeAcwRaw
  have ha0' : (0 : ℚ) ≤ (waveAngleAcw lead ledAngle : ℚ) := by exact_mod_cast ha0
  have ha1' : (waveAngleAcw lead ledAngle : ℚ) ≤ 180 := by exact_mod_cast ha1
  constructor
  · apply int_le_crnd
    rw [le_div_iff₀ (by norm_num : (0 : ℚ) < 180)]
    push_cast
    linarith
  · apply crnd_le_int
    rw [div_le_iff₀ (by norm_num : (0 : ℚ) < 180)]
    push_cast
    linarith

/-- The throb raw brightness lies in [0, 100] whenever the trigonometric
function it samples stays within [-1, 1], as the platform cosine and sine
do. -/
theorem throbRaw_bounds (f : ℚ → ℚ) (lead : ℚ)
    (hf : ∀ x : ℚ, -1 ≤ f x ∧ f x ≤ 1) :
    0 ≤ throbRaw f lead ∧ throbRaw f lead ≤ 100 := by
  simp only [throbRaw]
  obtain ⟨hl, hu⟩ := hf (((2 * crnd |180 - lead| : ℤ) : ℚ) * RADS_PER_DEGREE)
  push_cast at hl hu
  constructor
  · apply int_le_cint
    push_cast
    nlinarith
  · apply cint_le_int
    push_cast
    nlinarith

/-- The raindrop raw brightness lies in [0, 100] for every relative
position. -/
theorem raindropRaw_bounds (position : ℤ) :
    0 ≤ raindropRaw position ∧ raindropRaw position ≤ 100 := by
  unfold raindropRaw
  split_ifs with h1 h2
  · obtain ⟨hp0, hp1⟩ := h1
    have hp0' : (0 : ℚ) ≤ (position : ℚ) := by exact_mod_cast hp0
    have hp1' : (position : ℚ) ≤ 2 := by
      exact_mod_cast (show position ≤ 2 by
        simp only [RAMPUP_ANGLE] at hp1
        omega)
    constructor
    · apply int_le_crnd
      push_cast
      apply div_nonneg (by linarith)
      norm_num [RAMPUP_ANGLE]
    · apply crnd_le_int
      rw [div_le_iff₀ (by norm_num [RAMPUP_ANGLE] : (0 : ℚ) < ((RAMPUP_ANGLE : ℤ) : ℚ))]
      push_cast
      norm_num [RAMPUP_ANGLE]
      linarith
  · obtain ⟨hp0, hp1⟩ := h2
    have hp0' : (3 : ℚ) ≤ (position : ℚ) := by
      exact_mod_cast (show (3 : ℤ) ≤ position by
        simp only [RAMPUP_ANGLE] at hp0
        omega)
    have hp1' : (position : ℚ) ≤ 11 := by
      exact_mod_cast (show position ≤ 11 by
        simp only [RAINDROP_ANGLE] at hp1
        omega)
    have ha : (0 : ℤ) ≤ crnd (((100 * (position - RAMPUP_ANGLE) : ℤ) : ℚ) /
        ((RAMPDOWN_ANGLE : ℤ) : ℚ)) := by
      apply int_le_crnd
      push_cast
      apply div_nonneg
      · norm_num [RAMPUP_ANGLE]
        linarith
      · norm_num [RAMPDOWN_ANGLE, RAINDROP_ANGLE, RAMPUP_ANGLE]
    have hb : crnd (((100 * (position - RAMPUP_ANGLE) : ℤ) : ℚ) /
        ((RAMPDOWN_ANGLE : ℤ) : ℚ)) ≤ 100 := by
      apply crnd_le_int
      rw [div_le_iff₀ (by norm_num [RAMPDOWN_ANGLE, RAINDROP_ANGLE, RAMPUP_ANGLE] :
        (0 : ℚ) < ((RAMPDOWN_ANGLE : ℤ) : ℚ))]
      push_cast
      norm_num [RAMPUP_ANGLE, RAMPDOWN_ANGLE, RAINDROP_ANGLE]
      linarith
    omega
  · norm_num

/-- The unit clamp lands in [0, 100]. -/
theorem forceRange_bounds (v : ℤ) : 0 ≤ forceRange v 0 100 ∧ forceRange v 0 100 ≤ 100 := by
  unfold forceRange
  omega

/-- The flame-flicker scratch value handed to scaling lies in [0, 100]. -/
theorem candleRaw_bounds (extra r : ℤ) :
    0 ≤ candleRaw extra r ∧ candleRaw extra r ≤ 100 := by
  unfold candleRaw
  exact forceRange_bounds _

/-- The static-noise value handed to scaling lies in [0, 100]. -/
theorem staticRaw_bounds (extra r noise : ℤ) :
    0 ≤ staticRaw extra r noise ∧ staticRaw extra r noise ≤ 100 := by
  unfold staticRaw
  exact forceRange_bounds _

/-- Scaling at the maximum multiplier takes the identity branch. -/
theorem globalise_max (raw : ℤ) : globaliseBrightness MAX_BRIGHTNESS raw = raw := by
  simp [globaliseBrightness]

/-- The heartbeat `delta` local lies in [0, 135] for a lead angle in [0, 360). -/
theorem heartbeatDelta_bounds (lead : ℚ) (h0 : 0 ≤ lead) (h1 : lead < 360) :
    0 ≤ heartbeatDelta lead ∧ heartbeatDelta lead ≤ 135 := by
  unfold heartbeatDelta
  have hm0 : (0 : ℚ) ≤ min |225 - lead| |135 - lead| :=
    le_min (abs_nonneg _) (abs_nonneg _)
  have hm1 : min |225 - lead| |135 - lead| ≤ 135 := by
    rcases le_or_lt lead 270 with hc | hc
    · apply min_le_of_right_le
      rcases le_or_lt lead 135 with hd | hd
      · rw [abs_of_nonneg (by linarith)]
        linarith
      · rw [abs_of_nonpos (by linarith)]
        linarith
    · apply min_le_of_left_le
      rw [abs_of_nonpos (by linarith)]
      linarith
  exact ⟨int_le_crnd (by exact_mod_cast hm0), crnd_le_int (by exact_mod_cast hm1)⟩

/-- The heartbeat `percent` local lies in [0, 100] for a lead angle in [0, 360). -/
theorem heartbeatPercent_bounds (lead : ℚ) (h0 : 0 ≤ lead) (h1 : lead < 360) :
    0 ≤ heartbeatPercent lead ∧ heartbeatPercent lead ≤ 100 := by
  obtain ⟨hd0, hd1⟩ := heartbeatDelta_bounds lead h0 h1
  unfold heartbeatPercent
  have hd0' : (0 : ℚ) ≤ (heartbeatDelta lead : ℚ) := by exact_mod_cast hd0
  have hd1' : (heartbeatDelta lead : ℚ) ≤ 135 := by exact_mod_cast hd1
  constructor
  · apply int_le_crnd
    push_cast
    positivity
  · apply crnd_le_int
    rw [div_le_iff₀ (by norm_num : (0 : ℚ) < 135)]
    push_cast
    linarith

/-- The heartbeat raw brightness lies in [-100, 100] for a lead angle in [0, 360). -/
theorem heartbeatRaw_bounds (lead : ℚ) (h0 : 0 ≤ lead) (h1 : lead < 360) :
    -100 ≤ heartbeatRaw lead ∧ heartbeatRaw lead ≤ 100 := by
  obtain ⟨hp0, hp1⟩ := heartbeatPercent_bounds lead h0 h1
  unfold heartbeatRaw
  have hp0' : (0 : ℚ) ≤ (heartbeatPercent lead : ℚ) := by exact_mod_cast hp0
  have hp1' : (heartbeatPercent lead : ℚ) ≤ 100 := by exact_mod_cast hp1
  constructor
  · apply int_le_crnd
    push_cast
    linarith
  · apply crnd_le_int
    push_cast
    linarith

/-- The wave fold produces an angle in [0, 359] for angles in [0, 360). -/
theorem waveAngleCw_bounds (lead ledAngle : ℚ) (h0 : 0 ≤ lead) (h1 : lead < 360)
    (g0 : 0 ≤ ledAngle) (g1 : ledAngle < 360) :
    0 ≤ waveAngleCw lead ledAngle ∧ waveAngleCw lead ledAngle ≤ 359 := by
  unfold waveAngleCw
  have hx1 : cint (lead - ledAngle) < 360 :=
    cint_lt_of_lt (by norm_num) (by push_cast; linarith)
  have hx0 : -360 < cint (lead - ledAngle) :=
    lt_cint_of_lt (b := 360) (by norm_num) (by push_cast; linarith)
  have ht : -179 ≤ Int.tmod (cint (lead - ledAngle) + 180) 360 ∧
      Int.tmod (cint (lead - ledAngle) + 180) 360 < 360 := by
    rcases le_or_lt 0 (cint (lead - ledAngle) + 180) with hc | hc
    · exact ⟨le_trans (by norm_num) (Int.tmod_nonneg 360 hc),
        Int.tmod_lt_of_pos _ (by norm_num)⟩
    · rw [tmod_eq_self_of_neg (by norm_num) (by omega) hc]
      omega
  refine ⟨abs_nonneg _, ?_⟩
  rw [abs_le]
  omega

/-- The wave (clockwise) raw brightness lies in [-100, 100] for angles in [0, 360). -/
theorem waveModeCwRaw_bounds (lead ledAngle : ℚ) (h0 : 0 ≤ lead) (h1 : lead < 360)
    (g0 : 0 ≤ ledAngle) (g1 : ledAngle < 360) :
    -100 ≤ waveModeCwRaw lead ledAngle ∧ waveModeCwRaw lead ledAngle ≤ 100 := by
  obtain ⟨ha0, ha1⟩ := waveAngleCw_bounds lead ledAngle h0 h1 g0 g1
  unfold waveModeCwRaw
  have ha0' : (0 : ℚ) ≤ (waveAngleCw lead ledAngle : ℚ) := by exact_mod_cast ha0
  have ha1' : (waveAngleCw lead ledAngle : ℚ) ≤ 359 := by exact_mod_cast ha1
  constructor
  · apply int_le_crnd
    rw [le_div_iff₀ (by norm_num : (0 : ℚ) < 180)]
    push_cast
    linarith
  · apply crnd_le_int
    rw [div_le_iff₀ (by norm_num : (0 : ℚ) < 180)]
    push_cast
    linarith

/-- C1 counterexample: the heartbeat pattern at lead angle 0 computes raw
brightness -100 (for any LED and revolution, since it ignores both), and the
clockwise wave pattern at lead angle 0 for the LED at 300 degrees computes raw
brightness -67; both escape [0, 100] before global scaling. -/
theorem pattern_raw_negative_values :
    (heartbeatRaw 0 = -100 ∧ heartbeatRaw 0 < 0) ∧
    (waveModeCwRaw 0 300 = -67 ∧ waveModeCwRaw 0 300 < 0) := by
  have h1 : min |(225 : ℚ) - 0| |(135 : ℚ) - 0| = 135 := by
    rw [show (225 : ℚ) - 0 = 225 by norm_num, show (135 : ℚ) - 0 = 135 by norm_num,
      abs_of_nonneg (by norm_num : (0 : ℚ) ≤ 225),
      abs_of_nonneg (by norm_num : (0 : ℚ) ≤ 135)]
    norm_num [min_def]
  have h2 : heartbeatDelta 0 = 135 := by
    simp only [heartbeatDelta, h1]
    norm_num [crnd, Int.floor_eq_iff]
  have h3 : heartbeatPercent 0 = 100 := by
    simp only [heartbeatPercent, h2]
    norm_num [crnd, Int.floor_eq_iff]
  have h4 : heartbeatRaw 0 = -100 := by
    simp only [heartbeatRaw, h3]
    norm_num [crnd, Int.ceil_eq_iff]
  have w1 : cint ((0 : ℚ) - 300) = -300 := by
    norm_num [cint, Int.ceil_eq_iff]
  have w2 : waveAngleCw 0 300 = 300 := by
    simp only [waveAngleCw, w1]
    decide
  have w3 : waveModeCwRaw 0 300 = -67 := by
    simp only [waveModeCwRaw, w2]
    norm_num [crnd, Int.ceil_eq_iff]
  exact ⟨⟨h4, by rw [h4]; norm_num⟩, ⟨w3, by rw [w3]; norm_num⟩⟩

/-- C1 (amended): for every pattern function, every LED angular position and
lead angle in [0, 360), every revolution, every scratch value and every random
draw, the raw brightness computed before global scaling is a whole-percent
integer lying in [-100, 100]. Every pattern except Heartbeat and
WaveClockwise keeps it in the original [0, 100] (JustOn, the three chase
modes, the anti-clockwise wave, both throb modes for any trigonometric
function bounded by [-1, 1], raindrop, flames and static); Heartbeat and
WaveClockwise can produce negative values, clamped to 0 only later at
duty-cycle conversion. -/
theorem pattern_raw_bounds (lead ledAngle : ℚ) (position extra r noise : ℤ)
    (f : ℚ → ℚ)
    (h0 : 0 ≤ lead) (h1 : lead < 360) (g0 : 0 ≤ ledAngle) (g1 : ledAngle < 360)
    (hf : ∀ x : ℚ, -1 ≤ f x ∧ f x ≤ 1) :
    (0 ≤ justOnRaw ∧ justOnRaw ≤ 100) ∧
    (0 ≤ chaseModeCwRaw lead ledAngle ∧ chaseModeCwRaw lead ledAngle ≤ 100) ∧
    (0 ≤ chaseModeAcwRaw lead ledAngle ∧ chaseModeAcwRaw lead ledAngle ≤ 100) ∧
    (0 ≤ chaseModeBothRaw lead ledAngle ∧ chaseModeBothRaw lead ledAngle ≤ 100) ∧
    (-100 ≤ waveModeCwRaw lead ledAngle ∧ waveModeCwRaw lead ledAngle ≤ 100) ∧
    (0 ≤ waveModeAcwRaw lead ledAngle ∧ waveModeAcwRaw lead ledAngle ≤ 100) ∧
    (0 ≤ throbRaw f lead ∧ throbRaw f lead ≤ 100) ∧
    (-100 ≤ heartbeatRaw lead ∧ heartbeatRaw lead ≤ 100) ∧
    (0 ≤ raindropRaw position ∧ raindropRaw position ≤ 100) ∧
    (0 ≤ candleRaw extra r ∧ candleRaw extra r ≤ 100) ∧
    (0 ≤ staticRaw extra r noise ∧ staticRaw extra r noise ≤ 100) :=
  ⟨⟨by decide, by decide⟩,
   chaseModeCwRaw_bounds lead ledAngle h0 g1,
   chaseModeAcwRaw_bounds lead ledAngle h0 g0,
   chaseModeBothRaw_bounds lead ledAngle h0 g0 g1,
   waveModeCwRaw_bounds lead ledAngle h0 h1 g0 g1,
   waveModeAcwRaw_bounds lead ledAngle h0 h1 g0 g1,
   throbRaw_bounds f lead hf,
   heartbeatRaw_bounds lead h0 h1,
   raindropRaw_bounds position,
   candleRaw_bounds extra r,
   staticRaw_bounds extra r noise⟩

/-- C1 witness: the amended bound instantiated at lead angle 0, LED angle 0,
position 0, scratch 0, zero random draws, and the constant-zero function for
the trigonometric parameter. -/
theorem pattern_raw_bounds_witness :
    ((0 : ℚ) ≤ 0 ∧ (0 : ℚ) < 360 ∧ (∀ x : ℚ, -1 ≤ (0 : ℚ) ∧ (0 : ℚ) ≤ 1)) ∧
    ((0 ≤ justOnRaw ∧ justOnRaw ≤ 100) ∧
     (0 ≤ chaseModeCwRaw 0 0 ∧ chaseModeCwRaw 0 0 ≤ 100) ∧
     (0 ≤ chaseModeAcwRaw 0 0 ∧ chaseModeAcwRaw 0 0 ≤ 100) ∧
     (0 ≤ chaseModeBothRaw 0 0 ∧ chaseModeBothRaw 0 0 ≤ 100) ∧
     (-100 ≤ waveModeCwRaw 0 0 ∧ waveModeCwRaw 0 0 ≤ 100) ∧
     (0 ≤ waveModeAcwRaw 0 0 ∧ waveModeAcwRaw 0 0 ≤ 100) ∧
     (0 ≤ throbRaw (fun _ => 0) 0 ∧ throbRaw (fun _ => 0) 0 ≤ 100) ∧
     (-100 ≤ heartbeatRaw 0 ∧ heartbeatRaw 0 ≤ 100) ∧
     (0 ≤ raindropRaw 0 ∧ raindropRaw 0 ≤ 100) ∧
     (0 ≤ candleRaw 0 0 ∧ candleRaw 0 0 ≤ 100) ∧
     (0 ≤ staticRaw 0 0 0 ∧ staticRaw 0 0 0 ≤ 100)) :=
  ⟨⟨le_refl 0, by norm_num, fun x => by norm_num⟩,
    pattern_raw_bounds 0 0 0 0 0 0 (fun _ => 0) (le_refl 0) (by norm_num)
      (le_refl 0) (by norm_num) (fun x => by norm_num)⟩

/-- C2: `setPattern` clamps with `forceRange(pattern, 0, PATTERN_COUNT)`, whose
upper bound is `PATTERN_COUNT` itself, so an out-of-range argument stores the
invalid pattern index 12 = `PATTERN_COUNT` rather than `PATTERN_COUNT - 1`. -/
theorem setPattern_stores_pattern_count :
    setPatternApplied 99 = PATTERN_COUNT ∧
    ¬ setPatternApplied 99 ≤ PATTERN_COUNT - 1 ∧
    (setPatternRun defaultSettings 99).2.pattern = PATTERN_COUNT := by
  exact ⟨by decide, by decide, by decide⟩

/-- C3: when the loaded settings record has the invalid sentinel set or a
version different from the current schema version, construction resets every
field to the defaults (pattern = ChaseClockwise, brightnessMultiplier = 18,
revsPerMinute = 18), marks the record valid with the current version, and
writes that same record back to the persistent store. -/
theorem init_resets_invalid_settings (nv : Settings)
    (h : nv.invalid ≠ 0 ∨ nv.version ≠ VERSION) :
    ledClusterInit nv = (defaultSettings, defaultSettings) ∧
    defaultSettings.pattern = ChaseClockwise ∧
    defaultSettings.brightnessMultiplier = 18 ∧
    defaultSettings.revsPerMinute = 18 ∧
    defaultSettings.invalid = 0 ∧
    defaultSettings.version = VERSION := by
  refine ⟨?_, rfl, rfl, rfl, rfl, rfl⟩
  simp only [ledClusterInit]
  rw [if_pos h]

/-- C3 witness: a fresh EEPROM read (all bytes 0xFF, so the sentinel byte is
255 and the version is wrong) is reset and written back. -/
theorem init_resets_invalid_settings_witness :
    ledClusterInit ⟨-1, -1, -1, -1, 255⟩ = (defaultSettings, defaultSettings) :=
  (init_resets_invalid_settings ⟨-1, -1, -1, -1, 255⟩ (Or.inl (by decide))).1

/-- C4: the cycle-clock sample is periodic in elapsed time: for every start
time, revolution period and sampling time with nonnegative elapsed time, and
every natural k, sampling k whole periods later leaves the angle unchanged and
advances the revolution counter by exactly k. -/
theorem cycleClock_periodic (nowMs startTimeMs periodMs : ℤ) (k : ℕ)
    (hel : 0 ≤ nowMs - startTimeMs) (hp : 0 < periodMs) :
    (getCurrentLightInfo (nowMs + (k : ℤ) * periodMs) startTimeMs periodMs).angle =
      (getCurrentLightInfo nowMs startTimeMs periodMs).angle ∧
    (getCurrentLightInfo (nowMs + (k : ℤ) * periodMs) startTimeMs periodMs).revolution =
      (getCurrentLightInfo nowMs startTimeMs periodMs).revolution + (k : ℤ) := by
  have hk0 : (0 : ℤ) ≤ (k : ℤ) * periodMs := mul_nonneg (Int.natCast_nonneg k) hp.le
  have he : nowMs + (k : ℤ) * periodMs - startTimeMs =
      (nowMs - startTimeMs) + (k : ℤ) * periodMs := by ring
  have h2 : 0 ≤ (nowMs - startTimeMs) + (k : ℤ) * periodMs := add_nonneg hel hk0
  have harith : ((nowMs - startTimeMs) + (k : ℤ) * periodMs) % periodMs =
      (nowMs - startTimeMs) % periodMs := by
    rw [mul_comm]
    exact Int.add_mul_emod_self_left (nowMs - startTimeMs) periodMs (k : ℤ)
  constructor
  · have hm : Int.tmod (nowMs + (k : ℤ) * periodMs - startTimeMs) periodMs =
        Int.tmod (nowMs - startTimeMs) periodMs := by
      rw [he, Int.tmod_eq_emod h2 hp.le, Int.tmod_eq_emod hel hp.le, harith]
    simp only [getCurrentLightInfo]
    rw [hm]
  · have hd : Int.tdiv (nowMs + (k : ℤ) * periodMs - startTimeMs) periodMs =
        Int.tdiv (nowMs - startTimeMs) periodMs + (k : ℤ) := by
      rw [he, Int.tdiv_eq_ediv h2 hp.le, Int.tdiv_eq_ediv hel hp.le,
        Int.add_mul_ediv_right _ _ hp.ne']
    simp only [getCurrentLightInfo]
    rw [hd]

/-- C4 witness: sampling at time 10 and three periods of 5 ms later. -/
theorem cycleClock_periodic_witness :
    (0 : ℤ) ≤ 10 - 0 ∧ (0 : ℤ) < 5 ∧
    ((getCurrentLightInfo (10 + ((3 : ℕ) : ℤ) * 5) 0 5).angle =
        (getCurrentLightInfo 10 0 5).angle ∧
     (getCurrentLightInfo (10 + ((3 : ℕ) : ℤ) * 5) 0 5).revolution =
        (getCurrentLightInfo 10 0 5).revolution + ((3 : ℕ) : ℤ)) :=
  ⟨by decide, by decide, cycleClock_periodic 10 0 5 3 (by decide) (by decide)⟩

/-- C5: for every raw brightness in [0,100], global scaling is monotonically
non-decreasing in the brightness multiplier over [1,20] for fixed raw, and is
the identity when the multiplier equals `MAX_BRIGHTNESS` = 20. -/
theorem globalise_monotone_and_identity (raw m1 m2 : ℤ)
    (hr0 : 0 ≤ raw) (hr1 : raw ≤ 100)
    (hmin : MIN_BRIGHTNESS ≤ m1) (h12 : m1 ≤ m2) (hmax : m2 ≤ MAX_BRIGHTNESS) :
    globaliseBrightness m1 raw ≤ globaliseBrightness m2 raw ∧
    globaliseBrightness MAX_BRIGHTNESS raw = raw := by
  refine ⟨?_, globalise_max raw⟩
  have hr0' : (0 : ℚ) ≤ (raw : ℚ) := by exact_mod_cast hr0
  have hden : (0 : ℚ) < ((MAX_BRIGHTNESS : ℤ) : ℚ) := by norm_num [MAX_BRIGHTNESS]
  by_cases h2 : m2 = MAX_BRIGHTNESS
  · subst h2
    rw [globalise_max]
    by_cases hm1 : m1 = MAX_BRIGHTNESS
    · rw [hm1, globalise_max]
    · rw [globaliseBrightness, if_pos hm1]
      apply crnd_le_int
      rw [div_le_iff₀ hden]
      have h12' : (m1 : ℚ) ≤ ((MAX_BRIGHTNESS : ℤ) : ℚ) := by exact_mod_cast h12
      push_cast at h12' ⊢
      nlinarith
  · have hm1 : m1 ≠ MAX_BRIGHTNESS := by
      simp only [MAX_BRIGHTNESS] at hmax h2 ⊢
      omega
    rw [globaliseBrightness, if_pos hm1, globaliseBrightness, if_pos h2]
    apply crnd_mono
    have hnum : ((m1 * raw : ℤ) : ℚ) ≤ ((m2 * raw : ℤ) : ℚ) := by
      have h12' : (m1 : ℚ) ≤ (m2 : ℚ) := by exact_mod_cast h12
      push_cast
      nlinarith
    gcongr

/-- C5 witness: raw brightness 50 with multipliers 10 and 20. -/
theorem globalise_monotone_witness :
    (0 : ℤ) ≤ 50 ∧ (50 : ℤ) ≤ 100 ∧ MIN_BRIGHTNESS ≤ 10 ∧ (10 : ℤ) ≤ 20 ∧
    (20 : ℤ) ≤ MAX_BRIGHTNESS ∧
    (globaliseBrightness 10 50 ≤ globaliseBrightness 20 50 ∧
     globaliseBrightness MAX_BRIGHTNESS 50 = 50) :=
  ⟨by decide, by decide, by decide, by decide, by decide,
    globalise_monotone_and_identity 50 10 20 (by decide) (by decide) (by decide)
      (by decide) (by decide)⟩

/-- C6 counterexample: at 50 percent the code stores 30 rpm, while affine
interpolation of [0,100] onto [6,60] would give 33 rpm. -/
theorem setSpeedPercent_midpoint_mismatch :
    setSpeedPercentApplied 50 = 30 ∧ setSpeedPercentLinearSpec 50 = 33 ∧
    setSpeedPercentApplied 50 ≠ setSpeedPercentLinearSpec 50 :=
  ⟨by decide, by decide, by decide⟩

/-- C6 (amended): for every percent in [0,100], `setSpeedPercent` applies
`MAX_SPEED * percent / 100` (truncated) clamped into [`MIN_SPEED`,
`MAX_SPEED`]: the result lies in [6,60], 0 percent yields 6 and 100 percent
yields 60, and for percentages of at least 10 the applied value is exactly
`60 * percent / 100` — the proportional map onto [0,60], not an affine
interpolation between 6 and 60. -/
theorem setSpeedPercent_applies_scaled_clamp (percent : ℤ)
    (h0 : 0 ≤ percent) (h1 : percent ≤ 100) :
    (MIN_SPEED ≤ setSpeedPercentApplied percent ∧
     setSpeedPercentApplied percent ≤ MAX_SPEED) ∧
    setSpeedPercentApplied 0 = MIN_SPEED ∧
    setSpeedPercentApplied 100 = MAX_SPEED ∧
    (10 ≤ percent → setSpeedPercentApplied percent = Int.tdiv (MAX_SPEED * percent) 100) ∧
    (percent < 10 → setSpeedPercentApplied percent = MIN_SPEED) := by
  have ht : Int.tdiv (60 * percent) 100 = (60 * percent) / 100 :=
    Int.tdiv_eq_ediv (mul_nonneg (by norm_num) h0) (by norm_num)
  refine ⟨⟨?_, ?_⟩, by decide, by decide, ?_, ?_⟩ <;>
    simp only [setSpeedPercentApplied, setSpeedApplied, forceRange,
      MIN_SPEED, MAX_SPEED, ht] <;>
    omega

/-- C6 witness: the amended description instantiated at 50 percent. -/
theorem setSpeedPercent_applies_scaled_clamp_witness :
    setSpeedPercentApplied 50 = Int.tdiv (MAX_SPEED * 50) 100 :=
  (setSpeedPercent_applies_scaled_clamp 50 (by decide) (by decide)).2.2.2.1 (by decide)

/-- C7 counterexample: with 6 LEDs, pattern ChaseClockwise, lead angle 0 and
identity scaling, the LED at 300 degrees gets brightness 83, not 17. -/
theorem chase_at_300_not_17 :
    globaliseBrightness MAX_BRIGHTNESS (chaseModeCwRaw 0 300) = 83 ∧
    globaliseBrightness MAX_BRIGHTNESS (chaseModeCwRaw 0 300) ≠ 17 := by
  have e3 : cint (((0 : ℚ) + 360) - 300) = 60 := by
    norm_num [cint, Int.floor_eq_iff]
  have h : chaseModeCwRaw 0 300 = 83 := by
    simp only [chaseModeCwRaw, e3]
    rw [show Int.tmod 60 360 = 60 by decide]
    norm_num [crnd, Int.floor_eq_iff]
  rw [globalise_max, h]
  exact ⟨rfl, by decide⟩

/-- C7 (amended): with pattern ChaseClockwise, lead angle 0 and identity
global scaling (multiplier 20), the LED at 0 degrees gets brightness 100, the
LED at 180 degrees gets 50, and the LED at 300 degrees gets 83
(round(100 * (360 - 60) / 360) = round(83.33) = 83). -/
theorem chase_scenario_lead_zero :
    globaliseBrightness MAX_BRIGHTNESS (chaseModeCwRaw 0 0) = 100 ∧
    globaliseBrightness MAX_BRIGHTNESS (chaseModeCwRaw 0 180) = 50 ∧
    globaliseBrightness MAX_BRIGHTNESS (chaseModeCwRaw 0 300) = 83 := by
  have e1 : cint (((0 : ℚ) + 360) - 0) = 360 := by
    norm_num [cint, Int.floor_eq_iff]
  have e2 : cint (((0 : ℚ) + 360) - 180) = 180 := by
    norm_num [cint, Int.floor_eq_iff]
  have e3 : cint (((0 : ℚ) + 360) - 300) = 60 := by
    norm_num [cint, Int.floor_eq_iff]
  refine ⟨?_, ?_, ?_⟩ <;> rw [globalise_max]
  · simp only [chaseModeCwRaw, e1]
    rw [show Int.tmod 360 360 = 0 by decide]
    norm_num [crnd, Int.floor_eq_iff]
  · simp only [chaseModeCwRaw, e2]
    rw [show Int.tmod 180 360 = 180 by decide]
    norm_num [crnd, Int.floor_eq_iff]
  · simp only [chaseModeCwRaw, e3]
    rw [show Int.tmod 60 360 = 60 by decide]
    norm_num [crnd, Int.floor_eq_iff]

/-- `setBrightness` reports true exactly when it changed the persisted record. -/
theorem setBrightnessRun_write_iff (nv : Settings) (value : ℤ) :
    ((setBrightnessRun nv value).1 = true ↔ (setBrightnessRun nv value).2 ≠ nv) := by
  simp only [setBrightnessRun]
  split_ifs with h
  · constructor
    · intro _ hEq
      exact h (by simpa using congrArg Settings.brightnessMultiplier hEq)
    · intro _
      rfl
  · simp

/-- `setPattern` reports true exactly when it changed the persisted record. -/
theorem setPatternRun_write_iff (nv : Settings) (pattern : ℤ) :
    ((setPatternRun nv pattern).1 = true ↔ (setPatternRun nv pattern).2 ≠ nv) := by
  simp only [setPatternRun]
  split_ifs with h
  · constructor
    · intro _ hEq
      exact h (by simpa using (congrArg Settings.pattern hEq).symm)
    · intro _
      rfl
  · simp

/-- `setSpeed` reports true exactly when it changed the persisted record. -/
theorem setSpeedRun_write_iff (nv : Settings) (speed : ℤ) :
    ((setSpeedRun nv speed).1 = true ↔ (setSpeedRun nv speed).2 ≠ nv) := by
  simp only [setSpeedRun]
  split_ifs with h
  · constructor
    · intro _ hEq
      exact h (by simpa using congrArg Settings.revsPerMinute hEq)
    · intro _
      rfl
  · simp

/-- C8: every settings mutator — absolute and relative, for pattern,
brightness and speed — writes the persisted record if and only if the
computed clamped or wrapped value differs from the current one, and its
boolean result reports exactly whether such a change occurred (so when it
reports false the persisted settings are unchanged). -/
theorem mutators_write_iff_change (nv : Settings) (value delta percent : ℤ) :
    (((setPatternRun nv value).1 = true ↔ (setPatternRun nv value).2 ≠ nv) ∧
     ((updatePatternRun nv delta).1 = true ↔ (updatePatternRun nv delta).2 ≠ nv)) ∧
    (((setBrightnessRun nv value).1 = true ↔ (setBrightnessRun nv value).2 ≠ nv) ∧
     ((updateBrightnessRun nv delta).1 = true ↔ (updateBrightnessRun nv delta).2 ≠ nv) ∧
     ((setBrightnessPercentRun nv percent).1 = true ↔
        (setBrightnessPercentRun nv percent).2 ≠ nv)) ∧
    (((setSpeedRun nv value).1 = true ↔ (setSpeedRun nv value).2 ≠ nv) ∧
     ((updateSpeedRun nv delta).1 = true ↔ (updateSpeedRun nv delta).2 ≠ nv) ∧
     ((setSpeedPercentRun nv percent).1 = true ↔
        (setSpeedPercentRun nv percent).2 ≠ nv)) := by
  refine ⟨⟨setPatternRun_write_iff nv value, ?_⟩,
    ⟨setBrightnessRun_write_iff nv value, ?_, ?_⟩,
    ⟨setSpeedRun_write_iff nv value, ?_, ?_⟩⟩
  · unfold updatePatternRun
    exact setPatternRun_write_iff nv _
  · unfold updateBrightnessRun
    exact setBrightnessRun_write_iff nv _
  · unfold setBrightnessPercentRun
    exact setBrightnessRun_write_iff nv _
  · unfold updateSpeedRun
    exact setSpeedRun_write_iff nv _
  · unfold setSpeedPercentRun
    exact setSpeedRun_write_iff nv _

/-- C8 witness: setting brightness 5 on the default record really writes. -/
theorem mutators_write_iff_change_witness :
    (setBrightnessRun defaultSettings 5).2 ≠ defaultSettings :=
  (mutators_write_iff_change defaultSettings 5 1 50).2.1.1.mp (by decide)

/-- Polling a stopped cluster changes nothing and emits nothing, for any
number of ticks. -/
theorem pollsRun_not_running (cosf sinf : ℚ → ℚ) (r1 r2 r3 : ℕ → ℤ) :
    ∀ (ts : List ℤ) (s : ClusterState), s.running = false →
      pollsRun cosf sinf r1 r2 r3 s ts = (s, []) := by
  intro ts
  induction ts with
  | nil => intro s h; rfl
  | cons t ts ih =>
    intro s h
    simp only [pollsRun]
    rw [show pollRun cosf sinf r1 r2 r3 t s = (s, []) by simp [pollRun, h]]
    simp [ih s h]

/-- C9: `shutdown` drives every LED output to duty cycle 0, and every
subsequent `poll` while stopped emits nothing to any output — regardless of
the active pattern, for any number of ticks — and leaves the cluster
stopped. -/
theorem shutdown_then_polls_silent (s : ClusterState) (cosf sinf : ℚ → ℚ)
    (r1 r2 r3 : ℕ → ℤ) (ts : List ℤ) :
    (shutdownRun s).2 = s.leds.map (fun led => (led.pin, 0)) ∧
    (pollsRun cosf sinf r1 r2 r3 (shutdownRun s).1 ts).2 = [] ∧
    (pollsRun cosf sinf r1 r2 r3 (shutdownRun s).1 ts).1.running = false := by
  have h : (shutdownRun s).1.running = false := rfl
  have hp := pollsRun_not_running cosf sinf r1 r2 r3 ts (shutdownRun s).1 h
  exact ⟨rfl, by rw [hp], by rw [hp]; exact h⟩

/-- Every entry of the duty-cycle table is between 0 and 255. -/
theorem duty_table_entry_bounds :
    ∀ x ∈ BRIGHTNESS_TO_DUTY_CYCLE, 0 ≤ x ∧ x ≤ 255 := by
  intro x hx
  have h := List.all_eq_true.mp
    (show BRIGHTNESS_TO_DUTY_CYCLE.all (fun y => decide (0 ≤ y ∧ y ≤ 255)) = true by decide)
    x hx
  exact of_decide_eq_true h

/-- C10: on a rendering tick each LED output receives exactly the duty-cycle
table entry indexed by its brightness clamped into [0,100]; every emitted duty
cycle lies in [0,255]; the lookup index is always within the 101-entry table;
and any brightness at or below 0 emits duty cycle 0. -/
theorem duty_cycle_output_safety (b : ℤ) (leds : List LedInfo) :
    (0 ≤ brightnessToDutyCycle b ∧ brightnessToDutyCycle b ≤ 255) ∧
    (forceRange b 0 100).toNat < BRIGHTNESS_TO_DUTY_CYCLE.length ∧
    (b ≤ 0 → brightnessToDutyCycle b = 0) ∧
    updateLedBrightnesses leds =
      leds.map (fun led => (led.pin, brightnessToDutyCycle led.brightness)) := by
  have hf0 : 0 ≤ forceRange b 0 100 := le_min (le_max_right b 0) (by norm_num)
  have hf1 : forceRange b 0 100 ≤ 100 := min_le_right _ _
  have hlen : BRIGHTNESS_TO_DUTY_CYCLE.length = 101 := by decide
  have hidx : (forceRange b 0 100).toNat < BRIGHTNESS_TO_DUTY_CYCLE.length := by
    rw [hlen]
    omega
  refine ⟨?_, hidx, ?_, rfl⟩
  · have hmem : brightnessToDutyCycle b ∈ BRIGHTNESS_TO_DUTY_CYCLE := by
      rw [brightnessToDutyCycle, List.getD_eq_getElem?_getD,
        List.getElem?_eq_getElem hidx, Option.getD_some]
      exact List.getElem_mem hidx
    exact duty_table_entry_bounds _ hmem
  · intro hb0
    have hz : forceRange b 0 100 = 0 := by
      simp only [forceRange]
      omega
    rw [brightnessToDutyCycle, hz]
    decide

/-- C10 witness: a negative stored brightness emits duty cycle 0, within
range. -/
theorem duty_cycle_output_safety_witness :
    brightnessToDutyCycle (-5) = 0 ∧ 0 ≤ brightnessToDutyCycle (-5) :=
  ⟨(duty_cycle_output_safety (-5) []).2.2.1 (by decide),
    (duty_cycle_output_safety (-5) []).1.1⟩

end NukaCola
